import Mathlib

/-!
Verification of the WAF comparison pipeline (helper.py / wafs.py).

The definitions below are a shallow embedding of the core payload-dispatch
and result-recording pipeline:

* `respBlocked`, `sendRequestAux`, `sendRequestModel`, `sendRequestFull`,
  `stripHostHeaders` embed `helper.send_request`.  The network is abstracted
  as an oracle `Nat → Option (Nat × String)` giving, per attempt index,
  either a response `(status, body)` or `none` for a raised transport
  exception.
* `poolRun`, `gatherResults`, `executorMap`, `dispatchPool` embed the
  `ThreadPoolExecutor.map` step of `Wafs._send_payloads`: workers complete
  in an arbitrary schedule (a permutation of the task indices), and the
  results are re-associated by task index, as `executor.map` does.
* `sanitize`, `resolveCategory`, `buildRows`, `sendPayloadsBatch` embed the
  DataFrame construction of `Wafs._send_payloads` (TestId assignment,
  Category resolution, NUL-byte replacement, header serialization).
* `shuffleModel`, `pyRoundFrac`, `sampleSize`, `sampleData` embed
  `Wafs._sample_data`.  `random.shuffle` is the Fisher-Yates loop of
  CPython's `random` module, with the Mersenne-Twister draws abstracted by
  the deterministic `randBelowFn` stream; `random.seed(42)` resets the
  stream state irrespective of the previous global state.  `pyRoundFrac`
  computes round-half-to-even of `0.15 * n` exactly (as the rational
  `3n/20`), which agrees with the CPython float computation at the dataset
  sizes in scope.
* `healthOk`, `functionalOk`, `checkSummary`, `checkFailed`,
  `checkConnectionOutcome` embed `Wafs.check_connection`; note that the
  source aborts with a bare `sys.exit()`, which terminates the process with
  exit status 0.
* `runPipeline` ties the stages together.
-/

namespace WafSpec

/-- The hard-coded block-page marker of `helper.send_request`. -/
def blockMarker : String :=
  "The requested URL was rejected. Please consult with your administrator."

/-- `startsWith needle hay`: `hay` begins with `needle` (char lists). -/
def startsWith : List Char → List Char → Bool
  | [], _ => true
  | _ :: _, [] => false
  | a :: as, b :: bs => a == b && startsWith as bs

/-- Substring containment on char lists; embeds Python's `in` on `str`. -/
def containsSub (needle : List Char) : List Char → Bool
  | [] => needle.isEmpty
  | c :: rest => startsWith needle (c :: rest) || containsSub needle rest

/-- `blockMarker in res.text` of `helper.send_request`. -/
def containsMarker (body : String) : Bool :=
  containsSub blockMarker.data body.data

/-- The blocked classification of `helper.send_request`:
`marker in res.text or res.status_code == 403`. -/
def respBlocked (status : Nat) (body : String) : Bool :=
  containsMarker body || status == 403

/-- The retry loop of `helper.send_request` (`while attempts < 3`).
First argument of the recursion is the attempts counter, second the
remaining loop iterations.  Returns the `[status, blocked]` pair together
with the total number of attempts made. -/
def sendRequestAux (oracle : Nat → Option (Nat × String)) :
    Nat → Nat → (Nat × Bool) × Nat
  | attempts, 0 => ((0, false), attempts)
  | attempts, fuel + 1 =>
    match oracle attempts with
    | some sb => ((sb.1, respBlocked sb.1 sb.2), attempts + 1)
    | none => sendRequestAux oracle (attempts + 1) fuel

/-- `helper.send_request`, returning the `(status, blocked)` result and the
number of attempts made. -/
def sendRequestModel (oracle : Nat → Option (Nat × String)) : (Nat × Bool) × Nat :=
  sendRequestAux oracle 0 3

/-- ASCII lower-casing of one character (Python `str.lower` on the ASCII
header names in scope). -/
def asciiLower (c : Char) : Char :=
  if 'A' ≤ c ∧ c ≤ 'Z' then Char.ofNat (c.toNat + 32) else c

/-- Lower-casing of a string, character by character. -/
def lowerStr (s : String) : String := String.mk (s.data.map asciiLower)

/-- The in-place header mutation of `helper.send_request`: every key whose
lower-cased form is `"host"` is popped from the caller's mapping. -/
def stripHostHeaders (hs : List (String × String)) : List (String × String) :=
  hs.filter (fun kv => !(lowerStr kv.1 == "host"))

/-- `helper.send_request` with the caller-visible header state made
explicit: returns the headers mapping as left after the call, and the
result with attempt count. -/
def sendRequestFull (headers : List (String × String))
    (oracle : Nat → Option (Nat × String)) :
    List (String × String) × ((Nat × Bool) × Nat) :=
  (stripHostHeaders headers, sendRequestAux oracle 0 3)

/-- One payload fixture, as loaded from a dataset JSON file. -/
structure Payload where
  method : String
  url : String
  headers : List (String × String)
  data : String
deriving DecidableEq

/-- The network environment: per request `(method, url, headers, data)` a
per-attempt outcome stream. -/
abbrev Transport :=
  String → String → List (String × String) → String → Nat → Option (Nat × String)

/-- The lambda inside `Wafs._send_payloads`:
`send_request(payload['method'], _url + payload['url'], payload['headers'], payload['data'])`. -/
def outcomeOf (transport : Transport) (baseUrl : String) (p : Payload) : Nat × Bool :=
  (sendRequestModel (transport p.method (baseUrl ++ p.url)
    (stripHostHeaders p.headers) p.data)).1

/-- Worker-pool execution: the tasks complete in the order given by
`sched`; each completed task is tagged with its input index. -/
def poolRun {α β : Type} (f : α → β) (data : List α) (sched : List Nat) :
    List (Nat × β) :=
  sched.filterMap (fun j => (data[j]?).map (fun a => (j, f a)))

/-- Re-association of completed tasks by input index, as
`ThreadPoolExecutor.map` yields results in input order. -/
def gatherResults {β : Type} (n : Nat) (pairs : List (Nat × β)) : List β :=
  (List.range n).filterMap (fun i => pairs.lookup i)

/-- `executor.map(f, data)` under the completion schedule `sched`. -/
def executorMap {α β : Type} (f : α → β) (data : List α) (sched : List Nat) :
    List β :=
  gatherResults data.length (poolRun f data sched)

/-- The dispatch step of `Wafs._send_payloads`: the concurrent fan-out of
all payloads of one batch against one WAF. -/
def dispatchPool (transport : Transport) (baseUrl : String)
    (payloads : List Payload) (sched : List Nat) : List (Nat × Bool) :=
  executorMap (outcomeOf transport baseUrl) payloads sched

/-- NUL-byte replacement of `Wafs._send_payloads`:
`str.replace("\x00", "�")` on a single character. -/
def nulRepl (c : Char) : Char :=
  if c = Char.ofNat 0 then Char.ofNat 0xFFFD else c

/-- `dff['url'].str.replace("\x00", "�")`, applied to one string. -/
def sanitize (s : String) : String := String.mk (s.data.map nulRepl)

/-- `json.dumps` on a headers mapping (textual serialization for the
database column). -/
def jsonOfHeaders (hs : List (String × String)) : String :=
  "\x7b" ++ String.intercalate ", "
    (hs.map (fun kv => "\"" ++ kv.1 ++ "\": \"" ++ kv.2 ++ "\"")) ++ "\x7d"

/-- Category resolution of `Wafs._send_payloads`: map `TestName` through
`file_category_mapping`; unmapped `Malicious` rows fall back to the test
name, unmapped `Legitimate` rows stay null. -/
def resolveCategory (mapping : List (String × String)) (testName dsType : String) :
    Option String :=
  match mapping.lookup testName with
  | some c => some c
  | none => if dsType = "Malicious" then some testName else none

/-- One persisted row of the `waf_comparison` table. -/
structure ResultRow where
  method : String
  url : String
  headersJson : String
  data : String
  machineName : String
  destinationURL : String
  wafName : String
  testName : String
  dataSetType : String
  responseStatusCode : Nat
  isBlocked : Bool
  testId : Nat
  category : Option String
deriving DecidableEq

/-- One row of the batch DataFrame, built from the 0-based row index, the
payload and its `(status, blocked)` result. -/
def mkRow (machine destUrl wafName testName dsType : String)
    (mapping : List (String × String))
    (ir : Nat × (Payload × (Nat × Bool))) : ResultRow :=
  { method := ir.2.1.method
    url := sanitize ir.2.1.url
    headersJson := jsonOfHeaders ir.2.1.headers
    data := sanitize ir.2.1.data
    machineName := machine
    destinationURL := destUrl
    wafName := wafName
    testName := testName
    dataSetType := dsType
    responseStatusCode := ir.2.2.1
    isBlocked := ir.2.2.2
    testId := ir.1 + 1
    category := resolveCategory mapping testName dsType }

/-- The DataFrame construction of `Wafs._send_payloads`: one row per
payload/result pair, `TestId = range(1, len(dff) + 1)`, sanitized `url`
and `data`, serialized headers, resolved `Category`. -/
def buildRows (payloads : List Payload) (results : List (Nat × Bool))
    (machine destUrl wafName testName dsType : String)
    (mapping : List (String × String)) : List ResultRow :=
  ((payloads.zip results).enum).map
    (mkRow machine destUrl wafName testName dsType mapping)

/-- `Wafs._send_payloads` end to end: dispatch one batch, then build the
rows that are appended to the store. -/
def sendPayloadsBatch (transport : Transport) (sched : List Nat)
    (machine baseUrl wafName testName dsType : String)
    (mapping : List (String × String)) (payloads : List Payload) :
    List ResultRow :=
  buildRows payloads (dispatchPool transport baseUrl payloads sched)
    machine baseUrl wafName testName dsType mapping

/-- `config.FAST_MODE_SEED`. -/
def FAST_MODE_SEED : Nat := 42

/-- The global `random` module state: the seed it was last seeded with and
the number of draws made since. -/
abbrev RandState := Nat × Nat

/-- `random.seed(n)`: resets the global stream, discarding prior state. -/
def seedRng (n : Nat) (_ : RandState) : RandState := (n, 0)

/-- One bounded draw of the seeded stream (deterministic stand-in for the
Mersenne-Twister `_randbelow`). -/
def randBelowFn (s : RandState) (bound : Nat) : Nat × RandState :=
  ((s.1 * 1103515245 + s.2 * 12345 + 12345) % 2147483648 % bound, (s.1, s.2 + 1))

/-- Swap of two positions of a list (the CPython `x[i], x[j] = x[j], x[i]`
inside `random.shuffle`). -/
def listSwap {α : Type} (l : List α) (i j : Nat) : List α :=
  match l[i]?, l[j]? with
  | some a, some b => (l.set i b).set j a
  | _, _ => l

/-- The Fisher-Yates loop of `random.shuffle`:
`for i in reversed(range(1, len(x))): j = randbelow(i + 1); swap`. -/
def shuffleAux {α : Type} : List α → Nat → RandState → List α × RandState
  | l, 0, s => (l, s)
  | l, i + 1, s =>
    shuffleAux (listSwap l (i + 1) (randBelowFn s (i + 2)).1) i (randBelowFn s (i + 2)).2

/-- `random.shuffle` on a copy of the list. -/
def shuffleModel {α : Type} (l : List α) (s : RandState) : List α × RandState :=
  shuffleAux l (l.length - 1) s

/-- Round-half-to-even of `0.15 * n`, computed exactly as the rational
`3 * n / 20` (Python's `round(len(data) * FAST_MODE_SAMPLE_PERCENTAGE)`). -/
def pyRoundFrac (n : Nat) : Nat :=
  if 3 * n % 20 < 10 then 3 * n / 20
  else if 3 * n % 20 = 10 then
    (if (3 * n / 20) % 2 = 0 then 3 * n / 20 else 3 * n / 20 + 1)
  else 3 * n / 20 + 1

/-- `sample_size = max(1, round(len(data) * FAST_MODE_SAMPLE_PERCENTAGE))`. -/
def sampleSize (n : Nat) : Nat := max 1 (pyRoundFrac n)

/-- `Wafs._sample_data`: seed the global stream with the constant seed,
shuffle a copy, truncate to the sample size. -/
def sampleData {α : Type} (data : List α) (s : RandState) : List α × RandState :=
  let s1 := seedRng FAST_MODE_SEED s
  let sh := shuffleModel data s1
  ((sh.1).take (sampleSize data.length), sh.2)

/-- One row of the health/functional check summary table of
`Wafs.check_connection`. -/
structure WafCheckRow where
  wafName : String
  url : String
  healthMark : String
  functionalMark : String
deriving DecidableEq

/-- The health check of `Wafs.check_connection`: benign GET, pass iff the
status code is 200.  `resp` maps a request URL to the `send_request`
result. -/
def healthOk (resp : String → Nat × Bool) (url : String) : Bool :=
  (resp url).1 == 200

/-- The functionality check of `Wafs.check_connection`: the script
injection payload must come back blocked. -/
def functionalOk (resp : String → Nat × Bool) (url : String) : Bool :=
  (resp (url ++ "/?a=<script>alert(1)</script>")).2

/-- One summary-table row, with the `✓`/`✗` marks of the source. -/
def checkWaf (resp : String → Nat × Bool) (nu : String × String) : WafCheckRow :=
  { wafName := nu.1
    url := nu.2
    healthMark := if healthOk resp nu.2 then "✓" else "✗"
    functionalMark := if functionalOk resp nu.2 then "✓" else "✗" }

/-- The printed summary table of `Wafs.check_connection`. -/
def checkSummary (resp : String → Nat × Bool) (wafs : List (String × String)) :
    List WafCheckRow :=
  wafs.map (checkWaf resp)

/-- The `check_failed` flag of `Wafs.check_connection`. -/
def checkFailed (resp : String → Nat × Bool) (wafs : List (String × String)) : Bool :=
  wafs.any (fun nu => !(healthOk resp nu.2) || !(functionalOk resp nu.2))

/-- Process outcome of a run. -/
inductive RunOutcome where
  | exited (code : Nat)
  | completed
deriving DecidableEq

/-- `Wafs.check_connection`: if any check failed, the bare `sys.exit()` on
line 91 of wafs.py terminates the process; a bare `sys.exit()` exits with
status 0. -/
def checkConnectionOutcome (resp : String → Nat × Bool)
    (wafs : List (String × String)) : RunOutcome :=
  if checkFailed resp wafs then RunOutcome.exited 0 else RunOutcome.completed

/-- One dataset test-case file (name, dataset type, payload list). -/
structure TestCase where
  testName : String
  dsType : String
  payloads : List Payload
deriving DecidableEq

/-- Modelled from the spec: the `runner` entry point that drives one full
run is not under src/ (src/runner.py is a stale legacy module without it);
per spec section 4.5 the orchestrator runs `check_connection` first and
dispatches payloads (`Wafs.send_payloads`, embedded via
`sendPayloadsBatch`) only when every WAF passed both checks, so on a check
failure no batch is dispatched and no row is written. -/
def runPipeline (resp : String → Nat × Bool) (transport : Transport)
    (sched : List Nat) (machine : String) (mapping : List (String × String))
    (wafs : List (String × String)) (testCases : List TestCase) :
    RunOutcome × List ResultRow :=
  match checkConnectionOutcome resp wafs with
  | RunOutcome.exited c => (RunOutcome.exited c, [])
  | RunOutcome.completed =>
    (RunOutcome.completed,
      testCases.flatMap (fun tc => wafs.flatMap (fun nu =>
        sendPayloadsBatch transport sched machine nu.2 nu.1
          tc.testName tc.dsType mapping tc.payloads)))

/-- Concrete payload used by the witnesses. -/
def cPayloadA : Payload :=
  { method := "GET", url := "/a", headers := [("User-Agent", "x")], data := "" }

/-- Concrete payload used by the witnesses. -/
def cPayloadB : Payload :=
  { method := "POST", url := "/b", headers := [], data := "p=1" }

/-- Concrete two-payload batch used by the witnesses. -/
def cPayloads : List Payload := [cPayloadA, cPayloadB]

/-- Concrete transport that answers every attempt with a 403. -/
def cTransport : Transport := fun _ _ _ _ _ => some (403, "")

/-- Concrete per-attempt oracle that always raises. -/
def cOracleDown : Nat → Option (Nat × String) := fun _ => none

/-- Concrete per-attempt oracle that always answers 403. -/
def cOracle403 : Nat → Option (Nat × String) := fun _ => some (403, "")

/-- Concrete result pairs used by the witnesses. -/
def cResults : List (Nat × Bool) := [(200, false), (403, true)]

/-- Concrete category mapping used by the witnesses. -/
def cMapping : List (String × String) := [("testA", "SQL Injection")]

/-- Concrete send_request behaviour for the failing health check: the
benign GET to the WAF root returns 500, everything else is fine. -/
def cRespFail : String → Nat × Bool :=
  fun u => if u = "http://waf1" then (500, false) else (200, true)

/-- Concrete one-WAF configuration whose health check fails. -/
def cWafsFail : List (String × String) := [("WAF1", "http://waf1")]

/-- Concrete test case used by the failing-run evaluation. -/
def cTestCase : TestCase :=
  { testName := "tc", dsType := "Malicious", payloads := cPayloads }

/-- `startsWith` decides the "begins with" relation. -/
theorem startsWith_iff : ∀ (n h : List Char), startsWith n h = true ↔ ∃ t, h = n ++ t := by
  intro n
  induction n with
  | nil =>
    intro h
    simp [startsWith]
  | cons a as ih =>
    intro h
    cases h with
    | nil =>
      simp [startsWith]
    | cons b bs =>
      simp only [startsWith, Bool.and_eq_true, beq_iff_eq, ih, List.cons_append,
        List.cons.injEq]
      constructor
      · rintro ⟨rfl, t, rfl⟩
        exact ⟨t, rfl, rfl⟩
      · rintro ⟨t, rfl, rfl⟩
        exact ⟨rfl, t, rfl⟩

/-- `containsSub` decides substring containment. -/
theorem containsSub_iff (n : List Char) :
    ∀ (hay : List Char), containsSub n hay = true ↔ ∃ l r, hay = l ++ (n ++ r) := by
  intro hay
  induction hay with
  | nil =>
    simp only [containsSub, List.isEmpty_iff]
    constructor
    · rintro rfl
      exact ⟨[], [], rfl⟩
    · rintro ⟨l, r, h⟩
      have h' : l ++ (n ++ r) = [] := h.symm
      simp only [List.append_eq_nil] at h'
      exact h'.2.1
  | cons c rest ih =>
    simp only [containsSub, Bool.or_eq_true, ih, startsWith_iff]
    constructor
    · rintro (⟨t, ht⟩ | ⟨l, r, hr⟩)
      · exact ⟨[], t, by simpa using ht⟩
      · exact ⟨c :: l, r, by simp [hr]⟩
    · rintro ⟨l, r, h⟩
      cases l with
      | nil =>
        exact Or.inl ⟨r, by simpa using h⟩
      | cons x ls =>
        simp only [List.cons_append, List.cons.injEq] at h
        exact Or.inr ⟨ls, r, h.2⟩

/-- Claim C3: the blocked flag computed by `send_request` on an obtained
response is true iff the status code is 403 or the body contains the
literal rejection marker as a case-sensitive substring; in particular a
200 response with an unrelated body is not blocked. -/
theorem respBlocked_iff_marker_or_403 :
    (∀ (status : Nat) (body : String),
      respBlocked status body = true ↔
        status = 403 ∨ ∃ l r, body.data = l ++ (blockMarker.data ++ r))
    ∧ respBlocked 200 "Welcome to the example site" = false := by
  constructor
  · intro status body
    simp only [respBlocked, containsMarker, Bool.or_eq_true, beq_iff_eq,
      containsSub_iff]
    exact or_comm
  · decide

/-- Claim C4: when every transport attempt raises, `send_request` makes
exactly 3 attempts and returns the sentinel `(0, false)` as a value (the
failure is not re-raised). -/
theorem sendRequest_all_failures_sentinel (oracle : Nat → Option (Nat × String))
    (h : ∀ i, i < 3 → oracle i = none) :
    sendRequestModel oracle = ((0, false), 3) := by
  have h0 := h 0 (by omega)
  have h1 := h 1 (by omega)
  have h2 := h 2 (by omega)
  simp [sendRequestModel, sendRequestAux, h0, h1, h2]

/-- Witness for C4 at the always-raising oracle. -/
theorem sendRequest_all_failures_sentinel_witness :
    (∀ i, i < 3 → cOracleDown i = none)
    ∧ sendRequestModel cOracleDown = ((0, false), 3) :=
  ⟨fun _ _ => rfl, sendRequest_all_failures_sentinel cOracleDown (fun _ _ => rfl)⟩

/-- Claim C10: over any sequence of transport outcomes delivering actual
HTTP responses (status codes of at least 100), `send_request` reports
blocked only when some attempt obtained a response, and whenever it
returns the status-code sentinel 0 the blocked flag is false. -/
theorem sentinel_never_blocked (oracle : Nat → Option (Nat × String))
    (hreal : ∀ i s b, oracle i = some (s, b) → 100 ≤ s) :
    ((sendRequestModel oracle).1.2 = true → ∃ i, i < 3 ∧ (oracle i).isSome = true)
    ∧ ((sendRequestModel oracle).1.1 = 0 → (sendRequestModel oracle).1.2 = false) := by
  cases h0 : oracle 0 with
  | some sb =>
    have hs := hreal 0 sb.1 sb.2 (by rw [h0])
    have hm : sendRequestModel oracle = ((sb.1, respBlocked sb.1 sb.2), 1) := by
      simp [sendRequestModel, sendRequestAux, h0]
    rw [hm]
    constructor
    · intro _
      exact ⟨0, by omega, by simp [h0]⟩
    · intro hz
      have hz' : sb.1 = 0 := by simpa using hz
      exact absurd hz' (by omega)
  | none =>
    cases h1 : oracle 1 with
    | some sb =>
      have hs := hreal 1 sb.1 sb.2 (by rw [h1])
      have hm : sendRequestModel oracle = ((sb.1, respBlocked sb.1 sb.2), 2) := by
        simp [sendRequestModel, sendRequestAux, h0, h1]
      rw [hm]
      constructor
      · intro _
        exact ⟨1, by omega, by simp [h1]⟩
      · intro hz
        have hz' : sb.1 = 0 := by simpa using hz
        exact absurd hz' (by omega)
    | none =>
      cases h2 : oracle 2 with
      | some sb =>
        have hs := hreal 2 sb.1 sb.2 (by rw [h2])
        have hm : sendRequestModel oracle = ((sb.1, respBlocked sb.1 sb.2), 3) := by
          simp [sendRequestModel, sendRequestAux, h0, h1, h2]
        rw [hm]
        constructor
        · intro _
          exact ⟨2, by omega, by simp [h2]⟩
        · intro hz
          have hz' : sb.1 = 0 := by simpa using hz
          exact absurd hz' (by omega)
      | none =>
        have hm : sendRequestModel oracle = ((0, false), 3) := by
          simp [sendRequestModel, sendRequestAux, h0, h1, h2]
        rw [hm]
        exact ⟨fun hcontra => by simp at hcontra, fun _ => rfl⟩

/-- Looking up a task index in the completed pool output returns that
task's result, as every tag `j` carries `f data[j]`. -/
theorem lookup_poolRun {α β : Type} (f : α → β) (data : List α) :
    ∀ (sched : List Nat) (i : Nat) (a : α),
      data[i]? = some a → i ∈ sched →
      (poolRun f data sched).lookup i = some (f a) := by
  intro sched
  induction sched with
  | nil =>
    intro i a _ hmem
    simp at hmem
  | cons j rest ih =>
    intro i a ha hmem
    by_cases hij : i = j
    · subst hij
      have hrw : poolRun f data (i :: rest) = (i, f a) :: poolRun f data rest := by
        simp [poolRun, List.filterMap_cons, ha]
      rw [hrw]
      exact List.lookup_cons_self
    · have hmem' : i ∈ rest := by
        rcases List.mem_cons.mp hmem with h | h
        · exact absurd h hij
        · exact h
      cases hj : data[j]? with
      | none =>
        have hrw : poolRun f data (j :: rest) = poolRun f data rest := by
          simp [poolRun, List.filterMap_cons, hj]
        rw [hrw]
        exact ih i a ha hmem'
      | some b =>
        have hrw : poolRun f data (j :: rest) = (j, f b) :: poolRun f data rest := by
          simp [poolRun, List.filterMap_cons, hj]
        rw [hrw, List.lookup_cons]
        have : (i == j) = false := beq_false_of_ne hij
        rw [this]
        exact ih i a ha hmem'

/-- Collecting `l[i]?` over `range l.length` rebuilds `l`. -/
theorem range_filterMap_getElem {β : Type} :
    ∀ (l : List β), (List.range l.length).filterMap (fun i => l[i]?) = l := by
  intro l
  induction l with
  | nil => simp
  | cons a tl ih =>
    rw [List.length_cons, List.range_succ_eq_map, List.filterMap_cons,
      List.filterMap_map]
    simp only [List.getElem?_cons_zero]
    have hfun : ((fun i => (a :: tl)[i]?) ∘ Nat.succ) = (fun i => tl[i]?) := by
      funext i
      simp [Function.comp, List.getElem?_cons_succ]
    rw [hfun, ih]

/-- `filterMap` only depends on the values taken on the list members. -/
theorem filterMap_congr_mem {γ β : Type} {l : List γ} {f g : γ → Option β}
    (h : ∀ a ∈ l, f a = g a) : l.filterMap f = l.filterMap g := by
  induction l with
  | nil => rfl
  | cons a tl ih =>
    rw [List.filterMap_cons, List.filterMap_cons, h a (List.mem_cons_self a tl),
      ih (fun b hb => h b (List.mem_cons_of_mem a hb))]

/-- `executor.map` semantics: under any completion schedule that is a
permutation of the task indices, the gathered output is exactly the input
list mapped through the worker, in input order. -/
theorem executorMap_eq_map {α β : Type} (f : α → β) (data : List α)
    (sched : List Nat) (hperm : sched.Perm (List.range data.length)) :
    executorMap f data sched = data.map f := by
  unfold executorMap gatherResults
  have key : ∀ i ∈ List.range data.length,
      (poolRun f data sched).lookup i = (data.map f)[i]? := by
    intro i hi
    rw [List.mem_range] at hi
    have ha : data[i]? = some data[i] := List.getElem?_eq_getElem hi
    have hmem : i ∈ sched := hperm.mem_iff.mpr (List.mem_range.mpr hi)
    rw [lookup_poolRun f data sched i data[i] ha hmem, List.getElem?_map, ha]
    rfl
  rw [filterMap_congr_mem key]
  have hlen : data.length = (data.map f).length := (List.length_map data f).symm
  rw [hlen, range_filterMap_getElem]

/-- Claim C1: the dispatch step of `_send_payloads` returns one result per
payload, and the result at position `i` is the outcome of sending payload
`i`, for every completion order of the worker pool. -/
theorem dispatchPool_length_and_positional (transport : Transport)
    (baseUrl : String) (payloads : List Payload) (sched : List Nat)
    (hperm : sched.Perm (List.range payloads.length)) :
    (dispatchPool transport baseUrl payloads sched).length = payloads.length
    ∧ ∀ i (hi : i < (dispatchPool transport baseUrl payloads sched).length)
        (hp : i < payloads.length),
        (dispatchPool transport baseUrl payloads sched)[i] =
          outcomeOf transport baseUrl payloads[i] := by
  have heq : dispatchPool transport baseUrl payloads sched =
      payloads.map (outcomeOf transport baseUrl) :=
    executorMap_eq_map (outcomeOf transport baseUrl) payloads sched hperm
  constructor
  · rw [heq, List.length_map]
  · intro i hi hp
    have hi' : i < (payloads.map (outcomeOf transport baseUrl)).length := by
      rw [← heq]; exact hi
    calc (dispatchPool transport baseUrl payloads sched)[i]
        = (payloads.map (outcomeOf transport baseUrl))[i] := by
          congr 1
      _ = outcomeOf transport baseUrl payloads[i] := List.getElem_map _

/-- Witness for C1: a two-payload batch whose tasks finish in reversed
order still yields the two outcomes in input order. -/
theorem dispatchPool_length_and_positional_witness :
    List.Perm [1, 0] (List.range cPayloads.length)
    ∧ ((dispatchPool cTransport "http://w" cPayloads [1, 0]).length = cPayloads.length
      ∧ ∀ i (_hi : i < (dispatchPool cTransport "http://w" cPayloads [1, 0]).length)
          (_hp : i < cPayloads.length),
          (dispatchPool cTransport "http://w" cPayloads [1, 0])[i] =
            outcomeOf cTransport "http://w" cPayloads[i]) :=
  ⟨by decide,
    dispatchPool_length_and_positional cTransport "http://w" cPayloads [1, 0] (by decide)⟩

/-- Witness for C10 at the always-403 oracle. -/
theorem sentinel_never_blocked_witness :
    ((sendRequestModel cOracle403).1.2 = true → ∃ i, i < 3 ∧ (cOracle403 i).isSome = true)
    ∧ ((sendRequestModel cOracle403).1.1 = 0 → (sendRequestModel cOracle403).1.2 = false) :=
  sentinel_never_blocked cOracle403 (fun _ s b h => by
    simp only [cOracle403, Option.some.injEq, Prod.mk.injEq] at h
    obtain ⟨h1, _⟩ := h
    omega)

/-- Mapping the successor of the index over an enumerated list gives the
1-based contiguous range. -/
theorem enum_map_fst_succ {γ : Type} (l : List γ) :
    l.enum.map (fun x => x.1 + 1) = List.range' 1 l.length := by
  rw [List.enum_eq_zip_range]
  rw [show (fun (x : Nat × γ) => x.1 + 1) = (fun n => n + 1) ∘ Prod.fst from rfl]
  rw [← List.map_map, List.map_fst_zip _ _ (by simp)]
  rw [List.range'_eq_map_range]
  simp [Nat.add_comm]

/-- Mapping a function of the element over an enumerated list drops the
indices. -/
theorem enum_map_snd_comp {γ δ : Type} (l : List γ) (g : γ → δ) :
    l.enum.map (fun x => g x.2) = l.map g := by
  rw [List.enum_eq_zip_range]
  rw [show (fun (x : Nat × γ) => g x.2) = g ∘ Prod.snd from rfl]
  rw [← List.map_map, List.map_snd_zip _ _ (by simp)]

/-- Mapping a function of the first component over a zip projects to the
first list when it is no longer than the second. -/
theorem zip_map_fst_comp {γ δ ε : Type} (P : List γ) (R : List δ) (g : γ → ε)
    (h : P.length ≤ R.length) :
    (P.zip R).map (fun x => g x.1) = P.map g := by
  rw [show (fun (x : γ × δ) => g x.1) = g ∘ Prod.fst from rfl]
  rw [← List.map_map, List.map_fst_zip _ _ h]

/-- Claim C2: for a batch of `N` payloads, the persisted rows carry
`TestId` values `1, ..., N` in order: 1-based, contiguous, without gaps or
repeats, and assigned per batch (the numbering depends only on the batch,
not on any prior call). -/
theorem batch_testIds_contiguous (payloads : List Payload)
    (results : List (Nat × Bool))
    (machine destUrl wafName testName dsType : String)
    (mapping : List (String × String))
    (hlen : results.length = payloads.length) :
    ((buildRows payloads results machine destUrl wafName testName dsType mapping).map
        (fun r => r.testId)) = List.range' 1 payloads.length
    ∧ (∀ x, x ∈ (buildRows payloads results machine destUrl wafName testName dsType
          mapping).map (fun r => r.testId) ↔ 1 ≤ x ∧ x ≤ payloads.length)
    ∧ ((buildRows payloads results machine destUrl wafName testName dsType
          mapping).map (fun r => r.testId)).Nodup := by
  have hmap : ((buildRows payloads results machine destUrl wafName testName dsType
      mapping).map (fun r => r.testId)) = List.range' 1 payloads.length := by
    unfold buildRows
    rw [List.map_map]
    rw [show ((fun r : ResultRow => r.testId) ∘
        mkRow machine destUrl wafName testName dsType mapping) =
      (fun x : Nat × (Payload × (Nat × Bool)) => x.1 + 1) from rfl]
    rw [enum_map_fst_succ, List.length_zip, hlen, Nat.min_self]
  refine ⟨hmap, ?_, ?_⟩
  · intro x
    rw [hmap, List.mem_range'_1]
    omega
  · rw [hmap]
    exact List.nodup_range' 1 payloads.length

/-- Witness for C2 at a concrete two-payload batch. -/
theorem batch_testIds_contiguous_witness :
    cResults.length = cPayloads.length
    ∧ (((buildRows cPayloads cResults "m" "http://w" "WAF1" "testA" "Malicious"
          cMapping).map (fun r => r.testId)) = List.range' 1 cPayloads.length
      ∧ (∀ x, x ∈ (buildRows cPayloads cResults "m" "http://w" "WAF1" "testA"
            "Malicious" cMapping).map (fun r => r.testId) ↔
          1 ≤ x ∧ x ≤ cPayloads.length)
      ∧ ((buildRows cPayloads cResults "m" "http://w" "WAF1" "testA" "Malicious"
            cMapping).map (fun r => r.testId)).Nodup) :=
  ⟨rfl, batch_testIds_contiguous cPayloads cResults "m" "http://w" "WAF1" "testA"
    "Malicious" cMapping rfl⟩

/-- Claim C6: every persisted row resolves `Category` as: the mapped value
when `TestName` is in the static table; the test name itself when unmapped
and the dataset type is `Malicious`; null when unmapped and the dataset
type is `Legitimate`. -/
theorem category_resolution_cases (payloads : List Payload)
    (results : List (Nat × Bool)) (machine destUrl wafName : String)
    (mapping : List (String × String)) (testName dsType : String) :
    (∀ row ∈ buildRows payloads results machine destUrl wafName testName dsType
        mapping, row.category = resolveCategory mapping testName dsType)
    ∧ (∀ c, mapping.lookup testName = some c →
        resolveCategory mapping testName dsType = some c)
    ∧ (mapping.lookup testName = none → dsType = "Malicious" →
        resolveCategory mapping testName dsType = some testName)
    ∧ (mapping.lookup testName = none → dsType = "Legitimate" →
        resolveCategory mapping testName dsType = none) := by
  refine ⟨?_, ?_, ?_, ?_⟩
  · intro row hrow
    unfold buildRows at hrow
    rw [List.mem_map] at hrow
    obtain ⟨ir, _, rfl⟩ := hrow
    rfl
  · intro c hc
    simp [resolveCategory, hc]
  · intro hnone hds
    simp [resolveCategory, hnone, hds]
  · intro hnone hds
    have hne : ("Legitimate" : String) ≠ "Malicious" := by decide
    simp [resolveCategory, hnone, hds, hne]

/-- Witness for C6: a mapped test, an unmapped malicious test, and an
unmapped legitimate test. -/
theorem category_resolution_cases_witness :
    resolveCategory cMapping "testA" "Malicious" = some "SQL Injection"
    ∧ resolveCategory [] "sqli_basic" "Malicious" = some "sqli_basic"
    ∧ resolveCategory [] "legit_traffic" "Legitimate" = none :=
  ⟨(category_resolution_cases [] [] "" "" "" cMapping "testA" "Malicious").2.1
      "SQL Injection" rfl,
    (category_resolution_cases [] [] "" "" "" [] "sqli_basic" "Malicious").2.2.1
      rfl rfl,
    (category_resolution_cases [] [] "" "" "" [] "legit_traffic" "Legitimate").2.2.2
      rfl rfl⟩

/-- Claim C7: the persisted `url` and `data` strings of every row are the
payload's strings with each NUL character (U+0000) replaced by U+FFFD and
every other character unchanged, position by position. -/
theorem sanitize_nul_replacement_rows (payloads : List Payload)
    (results : List (Nat × Bool))
    (machine destUrl wafName testName dsType : String)
    (mapping : List (String × String))
    (hlen : results.length = payloads.length) :
    ((buildRows payloads results machine destUrl wafName testName dsType
        mapping).map (fun r => r.url) = payloads.map (fun p => sanitize p.url))
    ∧ ((buildRows payloads results machine destUrl wafName testName dsType
        mapping).map (fun r => r.data) = payloads.map (fun p => sanitize p.data))
    ∧ (∀ s : String, (sanitize s).data.length = s.data.length)
    ∧ (∀ (s : String) (j : Nat), (sanitize s).data[j]? =
        (s.data[j]?).map (fun c =>
          if c = Char.ofNat 0 then Char.ofNat 0xFFFD else c)) := by
  have hle : payloads.length ≤ results.length := le_of_eq hlen.symm
  refine ⟨?_, ?_, ?_, ?_⟩
  · unfold buildRows
    rw [List.map_map]
    rw [show ((fun r : ResultRow => r.url) ∘
        mkRow machine destUrl wafName testName dsType mapping) =
      (fun x : Nat × (Payload × (Nat × Bool)) => sanitize x.2.1.url) from rfl]
    rw [enum_map_snd_comp (payloads.zip results)
      (fun pr : Payload × (Nat × Bool) => sanitize pr.1.url)]
    exact zip_map_fst_comp payloads results (fun p => sanitize p.url) hle
  · unfold buildRows
    rw [List.map_map]
    rw [show ((fun r : ResultRow => r.data) ∘
        mkRow machine destUrl wafName testName dsType mapping) =
      (fun x : Nat × (Payload × (Nat × Bool)) => sanitize x.2.1.data) from rfl]
    rw [enum_map_snd_comp (payloads.zip results)
      (fun pr : Payload × (Nat × Bool) => sanitize pr.1.data)]
    exact zip_map_fst_comp payloads results (fun p => sanitize p.data) hle
  · intro s
    exact List.length_map s.data nulRepl
  · intro s j
    exact List.getElem?_map nulRepl s.data j

/-- Witness for C7 at a concrete batch containing a NUL byte in a url. -/
theorem sanitize_nul_replacement_rows_witness :
    cResults.length = cPayloads.length
    ∧ (((buildRows cPayloads cResults "m" "http://w" "WAF1" "testA" "Malicious"
          cMapping).map (fun r => r.url) = cPayloads.map (fun p => sanitize p.url))
      ∧ ((buildRows cPayloads cResults "m" "http://w" "WAF1" "testA" "Malicious"
          cMapping).map (fun r => r.data) =
            cPayloads.map (fun p => sanitize p.data))
      ∧ (∀ s : String, (sanitize s).data.length = s.data.length)
      ∧ (∀ (s : String) (j : Nat), (sanitize s).data[j]? =
          (s.data[j]?).map (fun c =>
            if c = Char.ofNat 0 then Char.ofNat 0xFFFD else c))) :=
  ⟨rfl, sanitize_nul_replacement_rows cPayloads cResults "m" "http://w" "WAF1"
    "testA" "Malicious" cMapping rfl⟩

/-- Counterexample for C9: `send_request` pops the `Host` key from the
caller's headers mapping in place, so the mapping is changed after the
call. -/
theorem sendRequest_mutates_host_header :
    (sendRequestFull [("Host", "example.com")] cOracleDown).1 ≠
      [("Host", "example.com")] := by
  decide

/-- Claim C9 amended: the only program-state side effect of `send_request`
is removing from the caller's headers mapping every key whose name
case-insensitively equals `Host`; a mapping without such a key is left
unchanged. -/
theorem sendRequest_headers_host_only_removed (headers : List (String × String))
    (oracle : Nat → Option (Nat × String))
    (h : ∀ kv ∈ headers, ¬(lowerStr kv.1 = "host")) :
    (sendRequestFull headers oracle).1 = headers
    ∧ (sendRequestFull headers oracle).1 =
        headers.filter (fun kv => !(lowerStr kv.1 == "host")) := by
  constructor
  · show stripHostHeaders headers = headers
    unfold stripHostHeaders
    apply List.filter_eq_self.mpr
    intro kv hkv
    by_cases hx : lowerStr kv.1 = "host"
    · exact absurd hx (h kv hkv)
    · simp [beq_iff_eq, hx]
  · rfl

/-- Witness for C9's amended claim at a host-free headers mapping. -/
theorem sendRequest_headers_host_only_removed_witness :
    (∀ kv ∈ [("User-Agent", "Mozilla")], ¬(lowerStr kv.1 = "host"))
    ∧ ((sendRequestFull [("User-Agent", "Mozilla")] cOracleDown).1 =
        [("User-Agent", "Mozilla")]
      ∧ (sendRequestFull [("User-Agent", "Mozilla")] cOracleDown).1 =
          [("User-Agent", "Mozilla")].filter (fun kv => !(lowerStr kv.1 == "host"))) :=
  ⟨by
    intro kv hkv
    rw [List.mem_singleton] at hkv
    subst hkv
    decide,
  sendRequest_headers_host_only_removed [("User-Agent", "Mozilla")] cOracleDown (by
    intro kv hkv
    rw [List.mem_singleton] at hkv
    subst hkv
    decide)⟩

/-- `listSwap` preserves the length. -/
theorem listSwap_length {α : Type} (l : List α) (i j : Nat) :
    (listSwap l i j).length = l.length := by
  unfold listSwap
  rcases h1 : l[i]? with _ | a <;> rcases h2 : l[j]? with _ | b <;>
    simp [h1, h2, List.length_set]

/-- The Fisher-Yates loop preserves the length. -/
theorem shuffleAux_length {α : Type} :
    ∀ (i : Nat) (l : List α) (s : RandState),
      ((shuffleAux l i s).1).length = l.length := by
  intro i
  induction i with
  | zero =>
    intro l s
    rfl
  | succ n ih =>
    intro l s
    rw [show shuffleAux l (n + 1) s =
      shuffleAux (listSwap l (n + 1) (randBelowFn s (n + 2)).1) n
        (randBelowFn s (n + 2)).2 from rfl]
    rw [ih]
    exact listSwap_length l (n + 1) _

/-- For a non-empty list the computed sample size never exceeds the list
length. -/
theorem sampleSize_le (n : Nat) (h : 1 ≤ n) : sampleSize n ≤ n := by
  unfold sampleSize pyRoundFrac
  split_ifs <;> omega

/-- Counterexample for C8: on the empty payload list `_sample_data`
returns the empty list, not a list of `max(1, round(0 * 0.15)) = 1`
elements. -/
theorem sample_empty_counterexample :
    ¬(((sampleData ([] : List Nat) (37, 5)).1).length = sampleSize 0) := by
  decide

/-- Claim C8 amended: on a non-empty list `_sample_data` returns exactly
`max(1, round(len * 0.15))` elements (on the empty list it returns the
empty list), and the result does not depend on the incoming global RNG
state, because the constant seed is applied first — two calls on the same
input return identical output in identical order. -/
theorem sample_length_and_determinism {α : Type} (data : List α)
    (s₁ s₂ : RandState) (hne : data ≠ []) :
    ((sampleData data s₁).1).length = sampleSize data.length
    ∧ (sampleData data s₁).1 = (sampleData data s₂).1 := by
  constructor
  · simp only [sampleData]
    rw [List.length_take]
    have hl : ((shuffleModel data (seedRng FAST_MODE_SEED s₁)).1).length =
        data.length := shuffleAux_length _ data _
    rw [hl]
    have hn : 1 ≤ data.length := by
      cases data with
      | nil => exact absurd rfl hne
      | cons a t => simp
    exact Nat.min_eq_left (sampleSize_le data.length hn)
  · simp only [sampleData, seedRng]

/-- Witness for C8's amended claim at a concrete seven-element list and
two different incoming RNG states. -/
theorem sample_length_and_determinism_witness :
    ([10, 20, 30, 40, 50, 60, 70] : List Nat) ≠ []
    ∧ (((sampleData ([10, 20, 30, 40, 50, 60, 70] : List Nat) (0, 0)).1).length =
        sampleSize 7
      ∧ (sampleData ([10, 20, 30, 40, 50, 60, 70] : List Nat) (0, 0)).1 =
          (sampleData ([10, 20, 30, 40, 50, 60, 70] : List Nat) (99, 3)).1) :=
  ⟨by decide,
    sample_length_and_determinism [10, 20, 30, 40, 50, 60, 70] (0, 0) (99, 3)
      (by decide)⟩

/-- Claim C5 evaluated at the failing input (code bug): with one WAF whose
benign GET returns 500, the run stops before any dispatch with no rows
written and the WAF carries the failure mark in the summary table — but
the process outcome is exit status 0 (the bare `sys.exit()` of
`check_connection`), not the non-zero outcome the claim states. -/
theorem checkConnection_failure_exits_zero_no_rows :
    runPipeline cRespFail cTransport [1, 0] "m" cMapping cWafsFail [cTestCase] =
      (RunOutcome.exited 0, [])
    ∧ (checkSummary cRespFail cWafsFail).map (fun r => (r.wafName, r.healthMark)) =
        [("WAF1", "✗")]
    ∧ checkConnectionOutcome cRespFail cWafsFail = RunOutcome.exited 0 := by
  refine ⟨?_, ?_, ?_⟩ <;> decide

end WafSpec
